import Mathlib

/-!
Shallow embedding of the Venice AI HTTP client (`src/venice_ai_fixed.py`)
and of the eBay card-listing helpers (`src/ebay_card_lister.py`), with
theorems settling the specification claims about them.

Python strings are modelled as Lean `String` (sequences of characters);
Python floats are modelled as exact rationals `ℚ` (the code performs only
small decimal arithmetic where binary-float rounding plays no role in any
claim); JSON documents (the result of `json.loads` / `response.json()`)
are modelled by the inductive type `Json` below.
-/

namespace Venice

/-- JSON values, the model of what Python's `json.loads` returns.
Numeric literals are modelled as integers: no code path relevant to a
claim ever receives a fractional JSON number. -/
inductive Json where
  | null
  | bool (b : Bool)
  | num (n : Int)
  | str (s : String)
  | arr (elems : List Json)
  | obj (fields : List (String × Json))
deriving Repr

/-- Python truthiness (`if value:`) of a JSON value. -/
def pyTruthy : Json → Bool
  | .null => false
  | .bool b => b
  | .num n => n != 0
  | .str s => s != ""
  | .arr xs => !xs.isEmpty
  | .obj fs => !fs.isEmpty

/-- Key lookup in a JSON object field list (Python `dict[key]` /
`key in dict` on the parsed body). -/
def jlookup (k : String) : List (String × Json) → Option Json
  | [] => none
  | (k', v) :: rest => if k' = k then some v else jlookup k rest

/-- Rendering of a JSON value inside a Python f-string (`str(value)`).
Only the string case is ever exercised by a claim; the rendering of
containers abbreviates Python's `repr`-style output. -/
def jsonToPyStr : Json → String
  | .str s => s
  | .num n => toString n
  | .bool b => if b then "True" else "False"
  | .null => "None"
  | .arr _ => "<list>"
  | .obj _ => "<dict>"

/-!  ## The model of `requests` responses and transport failures  -/

/-- Model of a `requests.Response`: the status code, the result of
`response.json()` (`none` when the body does not parse and the call
raises), the raw `response.text`, the decoded `response.iter_lines()`
sequence, and the `response.content` bytes. -/
structure HttpResponse where
  status : Nat
  body? : Option Json
  text : String
  lines : List String
  content : List Nat
deriving Repr

/-- Transport-level exceptions raised by `requests` (all subclasses of
`requests.exceptions.RequestException`). -/
inductive TransportExc where
  | timeout (msg : String)
  | connectionError (msg : String)
  | otherRequestException (msg : String)
deriving Repr

/-- Message carried by a transport exception (`str(e)`). -/
def TransportExc.msg : TransportExc → String
  | .timeout m => m
  | .connectionError m => m
  | .otherRequestException m => m

/-- Outcome of one `session.post`/`session.get` call: either a response
came back, or the call raised a transport exception. -/
inductive RequestOutcome where
  | response (r : HttpResponse)
  | exc (e : TransportExc)
deriving Repr

/-!  ## Exception classes (BLOCK 3 of `venice_ai_fixed.py`)  -/

/-- The custom exception classes of the client; each carries the message
it was constructed with (`str(e)`). -/
inductive VeniceError where
  | authenticationError (msg : String)
  | quotaExceededError (msg : String)
  | rateLimitError (msg : String)
  | badRequestError (msg : String)
  | veniceAPIError (msg : String)
  | connectionError (msg : String)
deriving Repr, DecidableEq

/-- The error kind (which exception class was raised), forgetting the
message. -/
inductive ErrKind where
  | authentication
  | quota
  | rateLimit
  | badRequest
  | api
  | connection
deriving Repr, DecidableEq

def VeniceError.kind : VeniceError → ErrKind
  | .authenticationError _ => .authentication
  | .quotaExceededError _ => .quota
  | .rateLimitError _ => .rateLimit
  | .badRequestError _ => .badRequest
  | .veniceAPIError _ => .api
  | .connectionError _ => .connection

def VeniceError.msg : VeniceError → String
  | .authenticationError m => m
  | .quotaExceededError m => m
  | .rateLimitError m => m
  | .badRequestError m => m
  | .veniceAPIError m => m
  | .connectionError m => m

/-!  ## `VeniceSettings` (BLOCK 4)  -/

/-- The `VeniceSettings` dataclass with its default field values. -/
structure VeniceSettings where
  base_url : String := "https://api.venice.ai/api/v1"
  chat_path : String := "/chat/completions"
  image_path : String := "/image/generate"
  audio_path : String := "/audio/speech"
  models_path : String := "/models"
  rate_limits_path : String := "/api_keys/rate_limits"
  timeout : Nat := 120
  stream_timeout : Nat := 120
  max_retries : Nat := 3
  retry_delay : ℚ := 1
deriving Repr

/-!  ## `VeniceAIClient._handle_api_error`  -/

/-- The `error_message` computed at the top of `_handle_api_error`:
`response.json()` is attempted; when it parses to a dict,
`error_data.get('error', f'HTTP {code}')` is taken; any exception in
that block (a JSON parse failure, or the `AttributeError` from calling
`.get` on a non-dict) is swallowed by the bare `except:` and the
fallback `response.text or f'HTTP {code}'` is used. -/
def errorMessageOf (r : HttpResponse) : String :=
  match r.body? with
  | some (.obj fs) =>
      match jlookup "error" fs with
      | some v => jsonToPyStr v
      | none => "HTTP " ++ toString r.status
  | _ => if r.text = "" then "HTTP " ++ toString r.status else r.text

/-- Model of `VeniceAIClient._handle_api_error`: classifies the response by
status code and raises the corresponding typed exception.  The function
always raises; its model returns the raised error value. -/
def handle_api_error (r : HttpResponse) : VeniceError :=
  let m := errorMessageOf r
  if r.status = 401 then
    .authenticationError ("Invalid API key or Pro subscription required: " ++ m)
  else if r.status = 402 then
    .quotaExceededError ("Insufficient balance or quota exceeded: " ++ m)
  else if r.status = 429 then
    .rateLimitError ("Rate limit exceeded: " ++ m)
  else if r.status = 400 then
    .badRequestError ("Invalid parameters: " ++ m)
  else
    .veniceAPIError ("API Error " ++ toString r.status ++ ": " ++ m)

/-!  ## `VeniceAIClient._exponential_backoff`  -/

/-- The fixed text `_handle_api_error` puts in front of `error_message`
for each status class. -/
def msgHead (status : Nat) : String :=
  if status = 401 then "Invalid API key or Pro subscription required: "
  else if status = 402 then "Insufficient balance or quota exceeded: "
  else if status = 429 then "Rate limit exceeded: "
  else if status = 400 then "Invalid parameters: "
  else "API Error " ++ toString status ++ ": "

/-- Model of `_exponential_backoff`: `min(2 ** attempt + (0.1 * attempt), 60)`. -/
def exponential_backoff (attempt : Nat) : ℚ :=
  min ((2 : ℚ) ^ attempt + (1 / 10) * attempt) 60

/-!  ## A model of `json.loads`

A recursive-descent parser over the characters of the payload, with a
fuel argument bounding the recursion.  It covers the JSON fragment the
client ever feeds to `json.loads`: literals, integers, strings (with the
single-character escape sequences), arrays and objects.  Numeric
literals with a fraction or exponent and `\u` escapes are rejected;
no code path relevant to a claim produces them. -/

/-- Skip JSON whitespace. -/
def skipWs : List Char → List Char
  | c :: cs => if c = ' ' ∨ c = '\t' ∨ c = '\n' ∨ c = '\r' then skipWs cs else c :: cs
  | [] => []

/-- Strip an expected literal prefix, or fail. -/
def dropLit : List Char → List Char → Option (List Char)
  | [], cs => some cs
  | _, [] => none
  | p :: ps, c :: cs => if p = c then dropLit ps cs else none

/-- Parse the body of a JSON string after the opening quote, returning
the decoded characters and the rest of the input. -/
def parseStringBody : List Char → Option (List Char × List Char)
  | [] => none
  | '"' :: rest => some ([], rest)
  | '\\' :: e :: rest => do
      let c ← match e with
        | '"' => some '"'
        | '\\' => some '\\'
        | '/' => some '/'
        | 'n' => some '\n'
        | 't' => some '\t'
        | 'r' => some '\r'
        | 'b' => some (Char.ofNat 8)
        | 'f' => some (Char.ofNat 12)
        | _ => none
      let (s, rem) ← parseStringBody rest
      some (c :: s, rem)
  | c :: rest => do
      let (s, rem) ← parseStringBody rest
      some (c :: s, rem)

/-- Greedily read decimal digits. -/
def takeDigits : List Char → List Char × List Char
  | [] => ([], [])
  | c :: cs =>
      if c.isDigit then
        let (ds, rem) := takeDigits cs
        (c :: ds, rem)
      else ([], c :: cs)

/-- Decimal digits to a natural number. -/
def digitsToNat (ds : List Char) : Nat :=
  ds.foldl (fun a c => a * 10 + (c.toNat - 48)) 0

mutual

/-- Parse one JSON value. -/
def parseVal : Nat → List Char → Option (Json × List Char)
  | 0, _ => none
  | fuel + 1, cs =>
    match skipWs cs with
    | [] => none
    | c :: rest =>
      if c = '"' then
        match parseStringBody rest with
        | some (s, rem) => some (.str ⟨s⟩, rem)
        | none => none
      else if c = '[' then
        parseItems fuel (skipWs rest)
      else if c = '{' then
        parseFields fuel (skipWs rest)
      else if c = 'n' then
        (dropLit ['u', 'l', 'l'] rest).map (fun rem => (.null, rem))
      else if c = 't' then
        (dropLit ['r', 'u', 'e'] rest).map (fun rem => (.bool true, rem))
      else if c = 'f' then
        (dropLit ['a', 'l', 's', 'e'] rest).map (fun rem => (.bool false, rem))
      else if c = '-' then
        match takeDigits rest with
        | ([], _) => none
        | (ds, rem) => some (.num (-(digitsToNat ds : Int)), rem)
      else if c.isDigit then
        match takeDigits (c :: rest) with
        | ([], _) => none
        | (ds, rem) => some (.num (digitsToNat ds : Int), rem)
      else none

/-- Parse the items of an array after the `[`. -/
def parseItems : Nat → List Char → Option (Json × List Char)
  | 0, _ => none
  | fuel + 1, cs =>
    match cs with
    | ']' :: rest => some (.arr [], rest)
    | _ => do
      let (v, rem) ← parseVal fuel cs
      parseItemsTail fuel [v] rem

/-- Parse `, value`* `]` accumulating items in reverse. -/
def parseItemsTail : Nat → List Json → List Char → Option (Json × List Char)
  | 0, _, _ => none
  | fuel + 1, acc, cs =>
    match skipWs cs with
    | ',' :: rest => do
        let (v, rem) ← parseVal fuel rest
        parseItemsTail fuel (v :: acc) rem
    | ']' :: rest => some (.arr acc.reverse, rest)
    | _ => none

/-- Parse the members of an object after the `{`. -/
def parseFields : Nat → List Char → Option (Json × List Char)
  | 0, _ => none
  | fuel + 1, cs =>
    match cs with
    | '}' :: rest => some (.obj [], rest)
    | _ => do
      let (kv, rem) ← parseField fuel cs
      parseFieldsTail fuel [kv] rem

/-- Parse one `"key": value` member. -/
def parseField : Nat → List Char → Option ((String × Json) × List Char)
  | 0, _ => none
  | fuel + 1, cs =>
    match skipWs cs with
    | '"' :: rest => do
        let (k, rem) ← parseStringBody rest
        match skipWs rem with
        | ':' :: rem2 => do
            let (v, rem3) ← parseVal fuel rem2
            some ((⟨k⟩, v), rem3)
        | _ => none
    | _ => none

/-- Parse `, member`* `}` accumulating members in reverse. -/
def parseFieldsTail : Nat → List (String × Json) → List Char → Option (Json × List Char)
  | 0, _, _ => none
  | fuel + 1, acc, cs =>
    match skipWs cs with
    | ',' :: rest => do
        let (kv, rem) ← parseField fuel rest
        parseFieldsTail fuel (kv :: acc) rem
    | '}' :: rest => some (.obj acc.reverse, rest)
    | _ => none

end

/-- The model of `json.loads` on the characters of the payload: parse
one value, require only trailing whitespace after it; `none` models a
raised `json.JSONDecodeError`. -/
def jsonParse (cs : List Char) : Option Json :=
  match parseVal (2 * cs.length + 8) cs with
  | some (v, rem) => if skipWs rem = [] then some v else none
  | none => none

/-!  ## `VeniceAIClient.chat_completion` — stream consumption  -/

/-- Python exceptions other than `json.JSONDecodeError` that the body of
the streaming loop can raise on dynamically ill-typed payloads; they are
not caught inside the loop, so they abort the stream and reach the outer
`except Exception` handler. -/
inductive PyExc where
  | typeError
  | attributeError
deriving Repr, DecidableEq

def PyExc.msg : PyExc → String
  | .typeError => "TypeError"
  | .attributeError => "AttributeError"

/-- Substring containment (`needle in hay` on Python strings). -/
def containsSub (needle : List Char) : List Char → Bool
  | [] => needle.isEmpty
  | c :: cs => needle.isPrefixOf (c :: cs) || containsSub needle cs

/-- Model of Python's `str.strip()`: drop whitespace at both ends. -/
def pyStrip (s : String) : List Char :=
  ((s.data.dropWhile Char.isWhitespace).reverse.dropWhile Char.isWhitespace).reverse

/-- Membership test `'key' in value` for a parsed payload: key membership for a dict,
element membership for a list, substring test for a string, and a
`TypeError` otherwise. -/
def pyContains (k : String) : Json → Except PyExc Bool
  | .obj fs => .ok ((jlookup k fs).isSome)
  | .arr xs => .ok (xs.any (fun j => match j with | .str s => s = k | _ => false))
  | .str s => .ok (containsSub k.data s.data)
  | _ => .error .typeError

/-- Length `len(value)`: defined for dicts, lists and strings, a `TypeError`
otherwise. -/
def pyLen : Json → Except PyExc Nat
  | .obj fs => .ok fs.length
  | .arr xs => .ok xs.length
  | .str s => .ok s.length
  | _ => .error .typeError

/-- Indexing `value[0]`: the first list element, the first character of a string
(as a one-character string), a `TypeError` otherwise.  Callers only
reach this with a non-empty value. -/
def pyIndexZero : Json → Except PyExc Json
  | .arr (x :: _) => .ok x
  | .arr [] => .error .typeError
  | .str s => match s.data with
      | c :: _ => .ok (.str ⟨[c]⟩)
      | [] => .error .typeError
  | _ => .error .typeError

/-- Lookup `value.get(key, default)`: only dicts have `.get`; anything else is
an `AttributeError`. -/
def pyGet (k : String) (dflt : Json) : Json → Except PyExc Json
  | .obj fs => .ok ((jlookup k fs).getD dflt)
  | _ => .error .attributeError

/-- Indexing `value[key]` with a string key: a dict lookup; a `TypeError`
otherwise.  Callers only reach this after `key in value` succeeded, so
the dict lookup never misses. -/
def pyIndexKey (k : String) : Json → Except PyExc Json
  | .obj fs => .ok ((jlookup k fs).getD .null)
  | _ => .error .typeError

/-- The body of the `try` inside the streaming loop, applied to a parsed
`data` payload:

```
if 'choices' in data and len(data['choices']) > 0:
    delta = data['choices'][0].get('delta', {})
    if 'content' in delta:
        yield delta['content']
```

`.ok (some v)` means the loop yields `v`; `.ok none` means it yields
nothing for this line; `.error e` means an uncaught exception aborts the
stream. -/
def extractFragment (data : Json) : Except PyExc (Option Json) := do
  let hasChoices ← pyContains "choices" data
  if hasChoices then
    let choices ← pyIndexKey "choices" data
    let n ← pyLen choices
    if n > 0 then
      let first ← pyIndexZero choices
      let delta ← pyGet "delta" (.obj []) first
      let hasContent ← pyContains "content" delta
      if hasContent then
        let content ← pyIndexKey "content" delta
        return some content
      else return none
    else return none
  else return none

/-- The `for line in response.iter_lines():` loop of `chat_completion`:
skips falsy (empty) lines, breaks on the `data: [DONE]` sentinel, parses
the remainder of each `data: `-prefixed line as JSON (a
`json.JSONDecodeError` is caught and the line skipped), and yields the
incremental content fragments.  Returns the fragments yielded and the
uncaught exception, if one aborted the loop. -/
def streamLoop : List String → List Json × Option PyExc
  | [] => ([], none)
  | line :: rest =>
    if line = "" then streamLoop rest
    else if "data: ".data.isPrefixOf line.data then
      if pyStrip line = "data: [DONE]".data then ([], none)
      else
        match jsonParse (line.data.drop 6) with
        | none => streamLoop rest
        | some data =>
          match extractFragment data with
          | .error e => ([], some e)
          | .ok none => streamLoop rest
          | .ok (some j) => (j :: (streamLoop rest).1, (streamLoop rest).2)
    else streamLoop rest

/-- Model of `VeniceAIClient.chat_completion`, as the list of values the
generator yields for one call, paired with the number of HTTP requests
the call issues (the method performs a single `session.post`).  A
non-200 status is classified by `_handle_api_error` and the raised error
is caught and surfaced as a yielded error string, as are transport
failures and an exception escaping the streaming loop. -/
def chat_completion (out : RequestOutcome) : List Json × Nat :=
  match out with
  | .exc (.timeout _) =>
      ([.str "⏰ Error: Request timed out. Please try again."], 1)
  | .exc (.connectionError _) =>
      ([.str "🔌 Error: Connection failed. Please check your internet connection."], 1)
  | .exc (.otherRequestException m) =>
      ([.str ("❌ Error: " ++ m)], 1)
  | .response r =>
    if r.status ≠ 200 then
      ([.str ("❌ Error: " ++ (handle_api_error r).msg)], 1)
    else
      ((streamLoop r.lines).1 ++
        (match (streamLoop r.lines).2 with
         | none => []
         | some ex => [.str ("❌ Error: " ++ ex.msg)]), 1)

/-!  ## `VeniceAIClient.generate_image`  -/

/-- The dict `generate_image` returns: `success: True` with the decoded
image list, or `success: False` with the error string.  The metadata
entries (`prompt`, `model`, `timestamp`, `id`, `timing`) are echoes of
the arguments, wall-clock reads, or fresh UUIDs; no claim depends on
them and they are omitted from the model. -/
inductive GenImageResult where
  | ok (images : List String)
  | err (error : String)
deriving Repr, DecidableEq

/-- The `img_b64.startswith('data:')` dispatch: raw base64 strings get the
data-URL prefix. -/
def decorateImage (img : String) : String :=
  if "data:".data.isPrefixOf img.data then img
  else "data:image/png;base64," ++ img

/-- Extract the elements of the `images` list when they are all strings;
a non-string element makes `img_b64.startswith` raise `AttributeError`. -/
def allStrings : List Json → Option (List String)
  | [] => some []
  | .str s :: rest => (allStrings rest).map (s :: ·)
  | _ => none

/-- The 200-status branch of `generate_image`, applied to the parsed
body: `if 'images' in data and data['images']:` with the decode loop on
success, and `raise ValueError("No images found in API response")` —
caught by the outer `except Exception`, which returns a failure dict
with `str(e)` — otherwise.  The `for img_b64 in data['images']:` loop
iterates list elements, string characters, or dict keys; each iterate
must be a string or `startswith` raises `AttributeError`; iterating any
other value raises `TypeError`; both land in `except Exception`. -/
def parseImageSuccess (data : Json) : GenImageResult :=
  match data with
  | .obj fs =>
      match jlookup "images" fs with
      | some v =>
          if pyTruthy v then
            match v with
            | .arr xs =>
                match allStrings xs with
                | some ss => .ok (ss.map decorateImage)
                | none => .err PyExc.attributeError.msg
            | .str s => .ok (s.data.map (fun c => decorateImage ⟨[c]⟩))
            | .obj fs2 => .ok (fs2.map (fun kv => decorateImage kv.1))
            | _ => .err PyExc.typeError.msg
          else .err "No images found in API response"
      | none => .err "No images found in API response"
  | .arr xs =>
      if xs.any (fun j => match j with | .str s => s = "images" | _ => false) then
        .err PyExc.typeError.msg
      else .err "No images found in API response"
  | .str s =>
      if containsSub "images".data s.data then .err PyExc.typeError.msg
      else .err "No images found in API response"
  | _ => .err PyExc.typeError.msg

/-- The `for attempt in range(max_retries):` loop of `generate_image`.
`world n` is the outcome of the `session.post` issued on attempt `n`;
`fuel` is the number of loop iterations left (`max_retries - attempt`).
Returns the result together with the number of HTTP requests issued.

Per iteration: a 200 response is decoded by `parseImageSuccess`; a
`response.json()` parse failure is an exception caught by
`except Exception`; a 429 sleeps `_exponential_backoff(attempt)` and
retries while `attempt < max_retries - 1`, and on the last attempt
raises `RateLimitError("Maximum retries exceeded for rate limit")`,
caught by the first `except` clause which returns a failure dict; any
other status raises via `_handle_api_error`, and the raised error —
whether caught by the first `except` clause or, for the base
`VeniceAPIError`, by `except Exception` — yields a failure dict with
`str(e)` without retrying; a transport exception yields a failure dict
with `Request failed: {e}`.  Falling out of the loop returns the final
`Maximum retries exceeded` dict. -/
def genImageGo (world : Nat → RequestOutcome) (max_retries : Nat) :
    Nat → Nat → GenImageResult × Nat
  | _, 0 => (.err "Maximum retries exceeded", 0)
  | attempt, fuel + 1 =>
    match world attempt with
    | .exc e => (.err ("Request failed: " ++ e.msg), 1)
    | .response r =>
      if r.status = 200 then
        match r.body? with
        | none => (.err "JSON decode error", 1)
        | some data => (parseImageSuccess data, 1)
      else if r.status = 429 then
        if attempt < max_retries - 1 then
          ((genImageGo world max_retries (attempt + 1) fuel).1,
           (genImageGo world max_retries (attempt + 1) fuel).2 + 1)
        else (.err "Maximum retries exceeded for rate limit", 1)
      else (.err (handle_api_error r).msg, 1)

/-- Model of `VeniceAIClient.generate_image`: run the retry loop from attempt 0
with `settings.max_retries` iterations available. -/
def generate_image (settings : VeniceSettings) (world : Nat → RequestOutcome) :
    GenImageResult × Nat :=
  genImageGo world settings.max_retries 0 settings.max_retries

/-!  ## `VeniceAIClient.text_to_speech`  -/

/-- Model of `text_to_speech`: a single `session.post`; a non-200 status raises
via `_handle_api_error` and the typed error is re-raised unchanged; a
transport exception is re-raised as the module's `ConnectionError` with
a `Request failed: {e}` message; a 200 returns `response.content`.
Paired with the number of HTTP requests issued. -/
def text_to_speech (out : RequestOutcome) : Except VeniceError (List Nat) × Nat :=
  match out with
  | .exc e => (.error (.connectionError ("Request failed: " ++ e.msg)), 1)
  | .response r =>
    if r.status ≠ 200 then (.error (handle_api_error r), 1)
    else (.ok r.content, 1)

end Venice

namespace EbayLister

/-!  ## `CardLister.generate_seo_title` (`src/ebay_card_lister.py`)

Python strings are modelled here as `List Char` so that slicing and
length arithmetic are elementary list operations. -/

/-- The card-details fields `generate_seo_title` reads. -/
structure CardDetails where
  year : List Char
  card_set : List Char
  player : List Char
  card_number : List Char
  attributes : List Char
  grader : List Char
  grade : List Char

/-- Joining `" ".join(parts)`. -/
def joinSp (parts : List (List Char)) : List Char :=
  List.intercalate [' '] parts

/-- The `title_parts` list: each component is appended when the
corresponding field is truthy (non-empty), in the fixed priority order;
the grade is rendered as `Grade {g}` when a grader is present and bare
otherwise. -/
def titleParts (d : CardDetails) : List (List Char) :=
  (if d.year ≠ [] then [d.year] else []) ++
  (if d.card_set ≠ [] then [d.card_set] else []) ++
  (if d.player ≠ [] then [d.player] else []) ++
  (if d.card_number ≠ [] then ['#' :: d.card_number] else []) ++
  (if d.attributes ≠ [] then [d.attributes] else []) ++
  (if d.grader ≠ [] then [d.grader] else []) ++
  (if d.grade ≠ [] ∧ d.grader ≠ [] then [('G' :: 'r' :: 'a' :: 'd' :: 'e' :: ' ' :: d.grade)]
   else if d.grade ≠ [] then [d.grade] else [])

/-- The first shrinking step: when the joined title exceeds 80
characters and both grade and grader are present, retry with the bare
grade in place of `Grade {g}`, and drop the grade entirely when that is
still too long. -/
def shrinkGrade (d : CardDetails) (title : List Char) : List Char :=
  if title.length > 80 ∧ d.grade ≠ [] ∧ d.grader ≠ [] then
    let title_alt := joinSp ((titleParts d).dropLast ++ [d.grade])
    if title_alt.length ≤ 80 then title_alt
    else joinSp (titleParts d).dropLast
  else title

/-- Model of `CardLister.generate_seo_title`: join the parts; when over 80
characters, shrink the grade rendering, then fall back to the essential
`year set player` composition, and as a last resort truncate to 77
characters plus `...`. -/
def generate_seo_title (d : CardDetails) : List Char :=
  let title := joinSp (titleParts d)
  if title.length > 80 then
    let title1 := shrinkGrade d title
    if title1.length > 80 then
      let essential := joinSp (([d.year, d.card_set, d.player]).filter (· ≠ []))
      if essential.length ≤ 80 then essential
      else title1.take 77 ++ ['.', '.', '.']
    else title1
  else title

/-!  ## `CardLister.analyze_pricing` — price cleaning and statistics

Scraped floats are modelled as exact rationals; the price strings the
claims exercise are exact decimals, where binary-float rounding plays no
role. -/

/-- Rounding `round(x, 2)` as Python computes it on clean decimal inputs:
round-half-to-even at the second decimal place.  The fractional part of
`q` is compared against one half by integer arithmetic on the numerator
and denominator. -/
def roundHalfEven (q : ℚ) : ℤ :=
  let f := q.floor
  let r2 := 2 * (q.num - f * q.den)
  if r2 < (q.den : ℤ) then f
  else if r2 > (q.den : ℤ) then f + 1
  else if f % 2 = 0 then f else f + 1

def round2 (q : ℚ) : ℚ := (roundHalfEven (100 * q) : ℚ) / 100

/-- Model of `statistics.mean`. -/
def listMean (l : List ℚ) : ℚ := l.sum / l.length

/-- Insert into a sorted list (the sorting step of `sorted(data)`). -/
def insertSorted (x : ℚ) : List ℚ → List ℚ
  | [] => [x]
  | y :: ys => if x ≤ y then x :: y :: ys else y :: insertSorted x ys

/-- Stable sort of the data, as `statistics.median` sorts its input. -/
def sortQ : List ℚ → List ℚ
  | [] => []
  | x :: xs => insertSorted x (sortQ xs)

/-- Model of `statistics.median`: middle element of the sorted list for odd
length, average of the two middle elements for even length. -/
def listMedian (l : List ℚ) : ℚ :=
  let s := sortQ l
  let n := l.length
  if n % 2 = 1 then s.getD (n / 2) 0
  else (s.getD (n / 2 - 1) 0 + s.getD (n / 2) 0) / 2

/-- Model of `min(l)` / `max(l)` on a non-empty list. -/
def listMin : List ℚ → ℚ
  | [] => 0
  | x :: xs => xs.foldl (fun a b => if b < a then b else a) x

def listMax : List ℚ → ℚ
  | [] => 0
  | x :: xs => xs.foldl (fun a b => if a < b then b else a) x

/-- Model of `float(s)` on a string of digits and dots (the alphabet left by
`re.sub(r'[^\d.]', '', ...)`): an optional integer part and an optional
fractional part around at most one dot, with at least one digit;
`none` models a raised `ValueError`. -/
def parsePyFloat (cs : List Char) : Option ℚ :=
  match cs.splitOn '.' with
  | [i] => if i ≠ [] then some (Venice.digitsToNat i : ℚ) else none
  | [i, f] =>
      if i ≠ [] ∨ f ≠ [] then
        some ((Venice.digitsToNat i : ℚ) +
              (Venice.digitsToNat f : ℚ) / (10 : ℚ) ^ f.length)
      else none
  | _ => none

/-- The characters before the first occurrence of `sep` — Python's
`s.split(sep)[0]` (the whole string when `sep` does not occur). -/
def takeBeforeSub (sep : List Char) : List Char → List Char
  | [] => []
  | c :: cs => if sep.isPrefixOf (c :: cs) then [] else c :: takeBeforeSub sep cs

/-- The per-element cleaning step of `analyze_pricing`:
`el.get_text(strip=True).split(' to ')[0]` then
`re.sub(r'[^\d.]', '', price_text)`. -/
def cleanPriceText (t : String) : List Char :=
  (takeBeforeSub " to ".data t.data).filter (fun c => c.isDigit || c = '.')

/-- The price-collection loop: skip elements whose cleaned text is empty
(`if cleaned_price and ...` short-circuits before calling `float`),
keep the parsed value when positive, and propagate the `ValueError` from
`float` on a malformed cleaned string (`none`). -/
def cleanPrices : List String → Option (List ℚ)
  | [] => some []
  | t :: rest =>
    let cleaned := cleanPriceText t
    if cleaned = [] then cleanPrices rest
    else
      match parsePyFloat cleaned with
      | none => none
      | some v =>
        if v > 0 then (cleanPrices rest).map (v :: ·)
        else cleanPrices rest

/-- The analysis dict `analyze_pricing` builds. -/
structure PriceAnalysis where
  count : Nat
  avg : ℚ
  median : ℚ
  min : ℚ
  max : ℚ
deriving Repr, DecidableEq

/-- The scraping-free tail of `CardLister.analyze_pricing`, applied to
the scraped price-element texts: clean them, return `none` (Python
`None`) when no prices survive, and otherwise the rounded statistics.
`.error` models the uncaught `ValueError` from `float`. -/
def analyze_pricing (texts : List String) : Except String (Option PriceAnalysis) :=
  match cleanPrices texts with
  | none => .error "ValueError"
  | some prices =>
    if prices = [] then .ok none
    else .ok (some
      { count := prices.length
        avg := round2 (listMean prices)
        median := round2 (listMedian prices)
        min := round2 (listMin prices)
        max := round2 (listMax prices) })

end EbayLister

/-- Decidable equality for `Except` results, used to evaluate the
pricing analysis on concrete inputs. -/
instance exceptDecEq {ε α : Type} [DecidableEq ε] [DecidableEq α] :
    DecidableEq (Except ε α) := fun x y =>
  match x, y with
  | .ok a, .ok b =>
      if h : a = b then isTrue (by rw [h])
      else isFalse (fun he => h (Except.ok.inj he))
  | .error a, .error b =>
      if h : a = b then isTrue (by rw [h])
      else isFalse (fun he => h (Except.error.inj he))
  | .ok _, .error _ => isFalse (fun he => Except.noConfusion he)
  | .error _, .ok _ => isFalse (fun he => Except.noConfusion he)

/-! ## Theorems settling the claims -/

namespace Venice

/-- C3: for every attempt index `n ≥ 0`, `_exponential_backoff` computes
`min(2^n + 0.1*n, 60)`; the delay is non-decreasing in `n` and never
exceeds 60 seconds. -/
theorem backoff_eq_min_monotone_capped :
    (∀ n : Nat, exponential_backoff n = min ((2 : ℚ) ^ n + (1 / 10) * n) 60) ∧
    (∀ m n : Nat, m ≤ n → exponential_backoff m ≤ exponential_backoff n) ∧
    (∀ n : Nat, exponential_backoff n ≤ 60) := by
  refine ⟨fun n => rfl, fun m n h => ?_, fun n => min_le_right _ _⟩
  apply min_le_min _ le_rfl
  have h2 : (2 : ℚ) ^ m ≤ 2 ^ n := by
    apply pow_le_pow_right₀ _ h
    norm_num
  have hc : ((m : ℚ)) ≤ (n : ℚ) := by exact_mod_cast h
  linarith

/-- Witness for C3 at concrete attempt indices. -/
theorem backoff_eq_min_monotone_capped_witness :
    exponential_backoff 2 = min ((2 : ℚ) ^ 2 + (1 / 10) * 2) 60 ∧
    exponential_backoff 1 ≤ exponential_backoff 3 ∧
    exponential_backoff 7 ≤ 60 :=
  ⟨backoff_eq_min_monotone_capped.1 2,
   backoff_eq_min_monotone_capped.2.1 1 3 (by norm_num),
   backoff_eq_min_monotone_capped.2.2 7⟩

/-- C1: for every non-2xx response, `_handle_api_error` raises exactly
the error kind determined by the status code — 401 authentication, 402
quota, 429 rate limit, 400 bad request, anything else the generic API
error — and the four listed kinds are pairwise distinct. -/
theorem handle_api_error_classifies (r : HttpResponse)
    (h : ¬(200 ≤ r.status ∧ r.status ≤ 299)) :
    ((handle_api_error r).kind =
      if r.status = 401 then ErrKind.authentication
      else if r.status = 402 then ErrKind.quota
      else if r.status = 429 then ErrKind.rateLimit
      else if r.status = 400 then ErrKind.badRequest
      else ErrKind.api) ∧
    [ErrKind.authentication, ErrKind.quota, ErrKind.rateLimit,
      ErrKind.badRequest].Pairwise (· ≠ ·) := by
  refine ⟨?_, by decide⟩
  by_cases h1 : r.status = 401 <;> by_cases h2 : r.status = 402 <;>
    by_cases h3 : r.status = 429 <;> by_cases h4 : r.status = 400 <;>
    simp [handle_api_error, VeniceError.kind, h1, h2, h3, h4]

/-- Witness for C1 at a concrete 418 response. -/
theorem handle_api_error_classifies_witness :
    (handle_api_error
        { status := 418, body? := none, text := "", lines := [], content := [] }).kind =
      ErrKind.api ∧
    [ErrKind.authentication, ErrKind.quota, ErrKind.rateLimit,
      ErrKind.badRequest].Pairwise (· ≠ ·) := by
  have h := handle_api_error_classifies
    { status := 418, body? := none, text := "", lines := [], content := [] }
    (by decide)
  exact ⟨by simpa using h.1, h.2⟩

end Venice

namespace Venice

/-- C7 counterexample: a 500 response whose body parses as a JSON object
without an `error` field and whose raw text is non-empty gets the
generic `HTTP 500` message, not the raw text the claim prescribes. -/
theorem error_message_ignores_text_on_obj_without_error :
    jsonParse "\x7b\"message\": \"boom\"\x7d".data =
      some (.obj [("message", Json.str "boom")]) ∧
    ("\x7b\"message\": \"boom\"\x7d" : String) ≠ "" ∧
    jlookup "error" [("message", Json.str "boom")] = none ∧
    handle_api_error
      { status := 500, body? := some (.obj [("message", Json.str "boom")]),
        text := "\x7b\"message\": \"boom\"\x7d", lines := [], content := [] } =
      .veniceAPIError "API Error 500: HTTP 500" ∧
    errorMessageOf
      { status := 500, body? := some (.obj [("message", Json.str "boom")]),
        text := "\x7b\"message\": \"boom\"\x7d", lines := [], content := [] } ≠
      "\x7b\"message\": \"boom\"\x7d" := by
  refine ⟨rfl, by decide, rfl, rfl, by decide⟩

/-- C7 (amended): the raised error's message is the status-class text
followed by `error_message`, where `error_message` is the body's `error`
field when the body parses as a JSON object containing it, the generic
`HTTP <code>` text when the body parses as a JSON object without it
(even when the raw text is non-empty), and otherwise the raw response
text when non-empty, else `HTTP <code>`; a body that fails to parse
never crashes classification (the classifier is total). -/
theorem error_message_fallback (r : HttpResponse)
    (h : ¬(200 ≤ r.status ∧ r.status ≤ 299)) :
    (∀ fs v, r.body? = some (.obj fs) → jlookup "error" fs = some v →
      errorMessageOf r = jsonToPyStr v) ∧
    (∀ fs, r.body? = some (.obj fs) → jlookup "error" fs = none →
      errorMessageOf r = "HTTP " ++ toString r.status) ∧
    ((∀ fs, r.body? ≠ some (.obj fs)) → r.text ≠ "" →
      errorMessageOf r = r.text) ∧
    ((∀ fs, r.body? ≠ some (.obj fs)) → r.text = "" →
      errorMessageOf r = "HTTP " ++ toString r.status) ∧
    ((handle_api_error r).msg = msgHead r.status ++ errorMessageOf r) := by
  refine ⟨?_, ?_, ?_, ?_, ?_⟩
  · intro fs v hb hl
    simp [errorMessageOf, hb, hl]
  · intro fs hb hl
    simp [errorMessageOf, hb, hl]
  · intro hb ht
    match hb2 : r.body? with
    | none => simp [errorMessageOf, hb2, ht]
    | some (.obj fs) => exact absurd hb2 (hb fs)
    | some .null | some (.bool _) | some (.num _) | some (.str _)
    | some (.arr _) => simp [errorMessageOf, hb2, ht]
  · intro hb ht
    match hb2 : r.body? with
    | none => simp [errorMessageOf, hb2, ht]
    | some (.obj fs) => exact absurd hb2 (hb fs)
    | some .null | some (.bool _) | some (.num _) | some (.str _)
    | some (.arr _) => simp [errorMessageOf, hb2, ht]
  · by_cases h1 : r.status = 401 <;> by_cases h2 : r.status = 402 <;>
      by_cases h3 : r.status = 429 <;> by_cases h4 : r.status = 400 <;>
      simp [handle_api_error, msgHead, VeniceError.msg, h1, h2, h3, h4]

/-- Witness for C7's amended statement at a concrete 503 response with
an unparseable body and non-empty text. -/
theorem error_message_fallback_witness :
    errorMessageOf
      { status := 503, body? := none, text := "oops", lines := [], content := [] } =
      "oops" ∧
    (handle_api_error
      { status := 503, body? := none, text := "oops", lines := [], content := [] }).msg =
      msgHead 503 ++ errorMessageOf
        { status := 503, body? := none, text := "oops", lines := [], content := [] } := by
  have h := error_message_fallback
    { status := 503, body? := none, text := "oops", lines := [], content := [] }
    (by decide)
  exact ⟨h.2.2.1 (fun fs => by simp) (by decide), h.2.2.2.2⟩

/-- C4: the streamed chat body `data: A-chunk`, `data: B-chunk`,
`data: [DONE]` makes `chat_completion` yield exactly `"A"` then `"B"`
and stop at the sentinel before any later line; blank lines are skipped,
and a `data: `-prefixed line whose remainder is not valid JSON is
skipped rather than aborting the stream. -/
theorem chat_stream_yields_and_stops :
    (∀ rest : List String,
      (chat_completion (.response
        { status := 200, body? := none, text := "",
          lines := "data: \x7b\"choices\":[\x7b\"delta\":\x7b\"content\":\"A\"\x7d\x7d]\x7d" ::
                   "data: \x7b\"choices\":[\x7b\"delta\":\x7b\"content\":\"B\"\x7d\x7d]\x7d" ::
                   "data: [DONE]" :: rest,
          content := [] })).1 = [Json.str "A", Json.str "B"]) ∧
    (∀ ls : List String, streamLoop ("" :: ls) = streamLoop ls) ∧
    (∀ (l : String) (ls : List String), l ≠ "" →
      "data: ".data.isPrefixOf l.data = true →
      pyStrip l ≠ "data: [DONE]".data → jsonParse (l.data.drop 6) = none →
      streamLoop (l :: ls) = streamLoop ls) := by
  refine ⟨fun rest => rfl, fun ls => rfl, fun l ls h1 h2 h3 h4 => ?_⟩
  rw [streamLoop]
  simp [h1, h2, h3, h4]

/-- Witness for C4: the stream theorem applied after the sentinel to a
concrete trailing line, to a concrete blank-line stream, and to a
concrete malformed line. -/
theorem chat_stream_yields_and_stops_witness :
    (chat_completion (.response
      { status := 200, body? := none, text := "",
        lines := ["data: \x7b\"choices\":[\x7b\"delta\":\x7b\"content\":\"A\"\x7d\x7d]\x7d",
                  "data: \x7b\"choices\":[\x7b\"delta\":\x7b\"content\":\"B\"\x7d\x7d]\x7d",
                  "data: [DONE]",
                  "data: \x7b\"choices\":[\x7b\"delta\":\x7b\"content\":\"C\"\x7d\x7d]\x7d"],
        content := [] })).1 = [Json.str "A", Json.str "B"] ∧
    streamLoop ["", "data: [DONE]"] = streamLoop ["data: [DONE]"] ∧
    streamLoop ["data: notjson", "data: [DONE]"] = streamLoop ["data: [DONE]"] := by
  refine ⟨chat_stream_yields_and_stops.1 _, chat_stream_yields_and_stops.2.1 _,
    chat_stream_yields_and_stops.2.2 "data: notjson" ["data: [DONE]"]
      (by decide) (by decide) (by decide) rfl⟩

end Venice

namespace Venice

/-- C2: with `max_retries = 3` and a world that answers every
image-generation request with HTTP 429, `generate_image` issues exactly
3 requests and returns the rate-limit failure result. -/
theorem generate_image_rate_limit_exhaustion (settings : VeniceSettings)
    (world : Nat → RequestOutcome)
    (hmr : settings.max_retries = 3)
    (h : ∀ n, ∃ r, world n = .response r ∧ r.status = 429) :
    generate_image settings world =
      (.err "Maximum retries exceeded for rate limit", 3) := by
  obtain ⟨r0, hw0, hs0⟩ := h 0
  obtain ⟨r1, hw1, hs1⟩ := h 1
  obtain ⟨r2, hw2, hs2⟩ := h 2
  simp [generate_image, hmr, genImageGo, hw0, hw1, hw2, hs0, hs1, hs2]

/-- Witness for C2 with a concrete always-429 world. -/
theorem generate_image_rate_limit_exhaustion_witness :
    generate_image {}
      (fun _ => .response { status := 429, body? := none, text := "", lines := [], content := [] }) =
      (.err "Maximum retries exceeded for rate limit", 3) :=
  generate_image_rate_limit_exhaustion {} _ rfl
    (fun _ => ⟨{ status := 429, body? := none, text := "", lines := [], content := [] }, rfl, rfl⟩)

/-- Helper: a string starting with a character other than `N` never
equals the `No images found in API response` message, whatever follows. -/
theorem mk_cons_append_ne_no_images (x : Char) (xs : List Char) (b : String)
    (hx : x ≠ 'N') :
    String.mk (x :: xs) ++ b ≠ "No images found in API response" := by
  intro h
  apply hx
  have h2 : (some x : Option Char) = some 'N' := congrArg (fun s => s.data.head?) h
  exact Option.some.inj h2

/-- C5: a first-attempt 200 response whose JSON object body lacks a
non-empty `images` entry makes `generate_image` fail with the
`No images found in API response` message, a message no HTTP-level
classification ever produces. -/
theorem generate_image_missing_images (settings : VeniceSettings)
    (world : Nat → RequestOutcome) (r : HttpResponse) (fs : List (String × Json))
    (hmr : settings.max_retries ≠ 0)
    (hw : world 0 = .response r) (hs : r.status = 200)
    (hb : r.body? = some (.obj fs))
    (hno : ∀ v, jlookup "images" fs = some v → pyTruthy v = false) :
    (generate_image settings world).1 = .err "No images found in API response" ∧
    (∀ r' : HttpResponse,
      (handle_api_error r').msg ≠ "No images found in API response") := by
  obtain ⟨k, hk⟩ : ∃ k, settings.max_retries = k + 1 :=
    ⟨settings.max_retries - 1, (Nat.succ_pred_eq_of_pos (Nat.pos_of_ne_zero hmr)).symm⟩
  constructor
  · rw [generate_image, hk]
    simp only [genImageGo, hw, hs, hb, if_pos, reduceIte]
    rcases hv : jlookup "images" fs with _ | v
    · simp [parseImageSuccess, hv]
    · simp [parseImageSuccess, hv, hno v hv]
  · intro r'
    by_cases h1 : r'.status = 401 <;> by_cases h2 : r'.status = 402 <;>
      by_cases h3 : r'.status = 429 <;> by_cases h4 : r'.status = 400 <;>
      simp only [handle_api_error, VeniceError.msg, h1, h2, h3, h4, if_true,
        if_false, ite_true, ite_false] <;>
      exact mk_cons_append_ne_no_images _ _ _ (by decide)

/-- Witness for C5 at a concrete 200 response with an empty body object. -/
theorem generate_image_missing_images_witness :
    (generate_image {}
      (fun _ => .response { status := 200, body? := some (.obj []), text := "",
                            lines := [], content := [] })).1 =
      .err "No images found in API response" ∧
    (handle_api_error { status := 404, body? := none, text := "",
                        lines := [], content := [] }).msg ≠
      "No images found in API response" := by
  have h := generate_image_missing_images {}
    (fun _ => .response { status := 200, body? := some (.obj []), text := "",
                          lines := [], content := [] })
    { status := 200, body? := some (.obj []), text := "", lines := [], content := [] }
    [] (by decide) rfl rfl rfl (fun v hv => by simp [jlookup] at hv)
  exact ⟨h.1, h.2 _⟩

end Venice

namespace Venice

/-- Requests after the first are issued only after a 429: whenever the
retry loop issued at least `j + 2` requests, the request at index `j`
got a 429 response. -/
theorem genImageGo_retry_is_429 (world : Nat → RequestOutcome) (mr : Nat) :
    ∀ fuel attempt j, j + 1 < (genImageGo world mr attempt fuel).2 →
      ∃ r, world (attempt + j) = .response r ∧ r.status = 429 := by
  intro fuel
  induction fuel with
  | zero =>
    intro attempt j hj
    simp [genImageGo] at hj
  | succ f ih =>
    intro attempt j hj
    rcases hw : world attempt with r | e
    · by_cases h200 : r.status = 200
      · exfalso
        rcases hb : r.body? with _ | d <;>
          simp [genImageGo, hw, h200, hb] at hj
      · by_cases h429 : r.status = 429
        · by_cases hlt : attempt < mr - 1
          · have hj2 : (genImageGo world mr attempt (f + 1)).2 =
                (genImageGo world mr (attempt + 1) f).2 + 1 := by
              simp [genImageGo, hw, h200, h429, hlt]
            cases j with
            | zero => exact ⟨r, by simpa using hw, h429⟩
            | succ j' =>
              obtain ⟨r', hw', hs'⟩ :=
                ih (attempt + 1) j' (by rw [hj2] at hj; omega)
              refine ⟨r', ?_, hs'⟩
              rw [show attempt + (j' + 1) = attempt + 1 + j' by omega]
              exact hw'
          · simp [genImageGo, hw, h200, h429, hlt] at hj
        · simp [genImageGo, hw, h200, h429] at hj
    · simp [genImageGo, hw] at hj

/-- C6: retrying happens only in `generate_image` and only on the
rate-limited classification: `chat_completion` and `text_to_speech`
issue exactly one HTTP request per call, and every `generate_image`
request except the last in a call was answered with HTTP 429. -/
theorem retry_only_in_image_on_429 :
    (∀ out, (chat_completion out).2 = 1) ∧
    (∀ out, (text_to_speech out).2 = 1) ∧
    (∀ (settings : VeniceSettings) (world : Nat → RequestOutcome) (j : Nat),
      j + 1 < (generate_image settings world).2 →
      ∃ r, world j = .response r ∧ r.status = 429) := by
  refine ⟨?_, ?_, ?_⟩
  · rintro (r | e)
    · by_cases h : r.status = 200 <;> simp [chat_completion, h]
    · rcases e <;> rfl
  · rintro (r | e)
    · by_cases h : r.status = 200 <;> simp [text_to_speech, h]
    · rfl
  · intro settings world j hj
    have := genImageGo_retry_is_429 world settings.max_retries
      settings.max_retries 0 j hj
    simpa using this

/-- Witness for C6 at a concrete chat outcome, speech outcome, and
always-429 image world. -/
theorem retry_only_in_image_on_429_witness :
    (chat_completion (.exc (.timeout "t"))).2 = 1 ∧
    (text_to_speech (.exc (.connectionError "c"))).2 = 1 ∧
    (∃ r, (fun _ : Nat => RequestOutcome.response
        { status := 429, body? := none, text := "", lines := [], content := [] }) 0 =
          .response r ∧ r.status = 429) := by
  refine ⟨retry_only_in_image_on_429.1 _, retry_only_in_image_on_429.2.1 _,
    retry_only_in_image_on_429.2.2 {}
      (fun _ => .response { status := 429, body? := none, text := "",
                            lines := [], content := [] }) 0 ?_⟩
  decide

end Venice

namespace Venice

/-- Decoding the `images` list preserves its length. -/
theorem allStrings_length :
    ∀ xs ss, allStrings xs = some ss → ss.length = xs.length := by
  intro xs
  induction xs with
  | nil => intro ss h; simp [allStrings] at h; simp [← h]
  | cons x rest ih =>
    intro ss h
    match x with
    | .str s =>
      simp only [allStrings] at h
      cases hr : allStrings rest with
      | none => simp only [hr] at h; simp at h
      | some ss' =>
        simp only [hr] at h
        simp at h
        rw [← h]
        simp [ih ss' hr]
    | .null | .bool _ | .num _ | .arr _ | .obj _ => simp [allStrings] at h

/-- A successful decode of a 200 body never carries an empty image
list. -/
theorem parseImageSuccess_ok (data : Json) :
    ∀ imgs, parseImageSuccess data = .ok imgs → imgs ≠ [] := by
  intro imgs h
  match data with
  | .null | .bool _ | .num _ => simp [parseImageSuccess] at h
  | .str s =>
    by_cases hc : containsSub "images".data s.data <;>
      simp [parseImageSuccess, hc] at h
  | .arr xs =>
    by_cases hc : xs.any (fun j => match j with | .str s => s = "images" | _ => false) <;>
      simp [parseImageSuccess, hc] at h
  | .obj fs =>
    simp only [parseImageSuccess] at h
    cases hv : jlookup "images" fs with
    | none => simp only [hv] at h; simp at h
    | some v =>
      simp only [hv] at h
      by_cases ht : pyTruthy v
      · rw [if_pos ht] at h
        match v, ht with
        | .arr xs, ht =>
          cases hs2 : allStrings xs with
          | none => simp only [hs2] at h; simp at h
          | some ss =>
            simp only [hs2] at h
            simp only [GenImageResult.ok.injEq] at h
            rw [← h]
            have hxs : ¬xs.isEmpty := by simpa [pyTruthy] using ht
            have hlen := allStrings_length xs ss hs2
            intro hnil
            apply hxs
            have : ss = [] := by simpa using hnil
            rw [List.isEmpty_iff, ← List.length_eq_zero, ← hlen, this]
            rfl
        | .str s, ht =>
          simp only [GenImageResult.ok.injEq] at h
          rw [← h]
          have hs3 : s ≠ "" := by simpa [pyTruthy] using ht
          intro hnil
          apply hs3
          apply String.ext
          simpa using hnil
        | .null, ht => simp at h
        | .bool b, ht => simp at h
        | .num n, ht => simp at h
        | .obj fs2, ht =>
          have hfs2 : fs2 ≠ [] := by
            intro hnil
            rw [hnil] at ht
            simp [pyTruthy] at ht
          simp only [GenImageResult.ok.injEq] at h
          rw [← h]
          simpa using hfs2
      · rw [if_neg ht] at h; simp at h

/-- Every result of the retry loop with a non-empty image list arises
from `parseImageSuccess`, so a `success` result always carries at least
one image. -/
theorem genImageGo_ok_nonempty (world : Nat → RequestOutcome) (mr : Nat) :
    ∀ fuel attempt imgs,
      (genImageGo world mr attempt fuel).1 = .ok imgs → imgs ≠ [] := by
  intro fuel
  induction fuel with
  | zero => intro attempt imgs h; simp [genImageGo] at h
  | succ f ih =>
    intro attempt imgs h
    rcases hw : world attempt with r | e
    · by_cases h200 : r.status = 200
      · cases hb : r.body? with
        | none => simp [genImageGo, hw, h200, hb] at h
        | some d =>
          simp only [genImageGo, hw, h200, hb, if_pos, reduceIte] at h
          exact parseImageSuccess_ok d imgs h
      · by_cases h429 : r.status = 429
        · by_cases hlt : attempt < mr - 1
          · have h2 : (genImageGo world mr attempt (f + 1)).1 =
                (genImageGo world mr (attempt + 1) f).1 := by
              simp [genImageGo, hw, h200, h429, hlt]
            rw [h2] at h
            exact ih (attempt + 1) imgs h
          · simp [genImageGo, hw, h200, h429, hlt] at h
        · simp [genImageGo, hw, h200, h429] at h
    · simp [genImageGo, hw] at h

/-- C8: `generate_image` never propagates an exception: for every
combination of responses and transport failures it returns a result
dict, either a failure carrying an error string or a success carrying a
non-empty image list. -/
theorem generate_image_always_returns :
    ∀ (settings : VeniceSettings) (world : Nat → RequestOutcome),
      (∃ imgs, (generate_image settings world).1 = .ok imgs ∧ imgs ≠ []) ∨
      (∃ msg, (generate_image settings world).1 = .err msg) := by
  intro settings world
  match hres : (generate_image settings world).1 with
  | .ok imgs =>
    exact Or.inl ⟨imgs, rfl,
      genImageGo_ok_nonempty world settings.max_retries
        settings.max_retries 0 imgs hres⟩
  | .err m => exact Or.inr ⟨m, rfl⟩

end Venice

namespace EbayLister

/-- C9: `generate_seo_title` always produces a title of at most 80
characters, and on the LeBron James sample record it produces the full
composition (containing the year, set and player) within the limit. -/
theorem seo_title_length_and_sample :
    (∀ d : CardDetails, (generate_seo_title d).length ≤ 80) ∧
    generate_seo_title
      { year := "2023".data, card_set := "Panini Prizm".data,
        player := "LeBron James".data, card_number := "1".data,
        attributes := "Rookie RC Patch Auto /25".data,
        grader := "PSA".data, grade := "9".data } =
      "2023 Panini Prizm LeBron James #1 Rookie RC Patch Auto /25 PSA Grade 9".data ∧
    ("2023 Panini Prizm LeBron James #1 Rookie RC Patch Auto /25 PSA Grade 9".data.length ≤ 80 ∧
     "2023".data <:+: "2023 Panini Prizm LeBron James #1 Rookie RC Patch Auto /25 PSA Grade 9".data ∧
     "Panini Prizm".data <:+: "2023 Panini Prizm LeBron James #1 Rookie RC Patch Auto /25 PSA Grade 9".data ∧
     "LeBron James".data <:+: "2023 Panini Prizm LeBron James #1 Rookie RC Patch Auto /25 PSA Grade 9".data) := by
  refine ⟨?_, by decide, by decide, by decide, by decide, by decide⟩
  intro d
  unfold generate_seo_title
  dsimp only
  split_ifs with h1 h2 h3
  · exact h3
  · simp only [List.length_append, List.length_take, List.length_cons,
      List.length_nil]
    omega
  · omega
  · omega

end EbayLister

namespace EbayLister

unseal Rat.add Rat.mul Rat.inv in
/-- C10: the scraped texts `$10.00`, `$12.50`, `$8 to $15` clean to the
numeric values 10, 12.5 and 8 (the range collapsing to its lower bound),
and the reported statistics are the standard mean, median, minimum and
maximum of that set rounded to two decimals, with `count` the number of
cleaned prices. -/
theorem pricing_sample_statistics :
    cleanPrices ["$10.00", "$12.50", "$8 to $15"] = some [10, 25/2, 8] ∧
    analyze_pricing ["$10.00", "$12.50", "$8 to $15"] =
      .ok (some { count := 3, avg := 1017/100, median := 10, min := 8, max := 25/2 }) ∧
    (1017/100 : ℚ) = round2 ((10 + 25/2 + 8) / 3) ∧
    (10 : ℚ) = round2 (listMedian [10, 25/2, 8]) ∧
    (8 : ℚ) = round2 (listMin [10, 25/2, 8]) ∧
    (25/2 : ℚ) = round2 (listMax [10, 25/2, 8]) ∧
    (3 : ℕ) = ([10, 25/2, 8] : List ℚ).length := by
  refine ⟨by decide, by decide, by decide, by decide, by decide, by decide, by decide⟩

end EbayLister
